import Mathlib

/-!
Shallow embedding of the dromajo RISC-V 64-bit simulator core
(`src/riscv_cpu.c`, machine/HTIF glue in `src/unnamed/part_000`,
`src/validation_events.h`) together with theorems settling the frozen
claims about the CSR file, the Sv39/Sv48 page-table walker, interrupt
delivery, the HTIF console and the snapshot boot-ROM synthesizer.

Machine integers are modelled as `Nat` with explicit truncation
(`% 2^64`, `% 2^32`) exactly where the C types force a wrap; bitwise C
operators map to `&&&`, `|||`, `^^^`, `<<<`, `>>>`; the C unary `~` on
a 64-bit (resp. 32-bit) operand is `not64` (resp. `not32`).
-/

namespace Dromajo

/-! ## Word-level helpers -/

/-- All-ones 64-bit word, `(target_ulong)-1`. -/
def mask64 : Nat := 2 ^ 64 - 1

/-- All-ones 32-bit word. -/
def mask32 : Nat := 2 ^ 32 - 1

/-- Bitwise complement of a 64-bit value (operand assumed `< 2^64`). -/
def not64 (x : Nat) : Nat := mask64 ^^^ x

/-- Bitwise complement of a 32-bit value (operand assumed `< 2^32`). -/
def not32 (x : Nat) : Nat := mask32 ^^^ x

/-- Sign-extension of the low `w` bits of `x` into a 64-bit word; this is
the value of `((target_long)x << (64-w)) >> (64-w)` in C. -/
def sext64 (x w : Nat) : Nat :=
  let lo := x % 2 ^ w
  if lo.testBit (w - 1) then lo + (2 ^ 64 - 2 ^ w) else lo

/-! ## Constants from `riscv_cpu.c` -/

def PRV_U : Nat := 0
def PRV_S : Nat := 1
def PRV_H : Nat := 2
def PRV_M : Nat := 3

def CAUSE_MASK : Nat := 0x1f
/-- `CAUSE_INTERRUPT`: `(uint32_t)1 << 31` (converted to the MSB position
at runtime by `raise_exception2`). -/
def CAUSE_INTERRUPT : Nat := 1 <<< 31

def MSTATUS_SPIE_SHIFT : Nat := 5
def MSTATUS_MPIE_SHIFT : Nat := 7
def MSTATUS_SPP_SHIFT : Nat := 8
def MSTATUS_MPP_SHIFT : Nat := 11
def MSTATUS_FS_SHIFT : Nat := 13
def MSTATUS_UXL_SHIFT : Nat := 32
def MSTATUS_SXL_SHIFT : Nat := 34

def MSTATUS_SIE : Nat := 1 <<< 1
def MSTATUS_MIE : Nat := 1 <<< 3
def MSTATUS_SPIE : Nat := 1 <<< MSTATUS_SPIE_SHIFT
def MSTATUS_MPIE : Nat := 1 <<< MSTATUS_MPIE_SHIFT
def MSTATUS_SPP : Nat := 1 <<< MSTATUS_SPP_SHIFT
def MSTATUS_MPP : Nat := 3 <<< MSTATUS_MPP_SHIFT
def MSTATUS_FS : Nat := 3 <<< MSTATUS_FS_SHIFT
def MSTATUS_XS : Nat := 3 <<< 15
def MSTATUS_MPRV : Nat := 1 <<< 17
def MSTATUS_SUM : Nat := 1 <<< 18
def MSTATUS_MXR : Nat := 1 <<< 19
def MSTATUS_TVM : Nat := 1 <<< 20
def MSTATUS_TW : Nat := 1 <<< 21
def MSTATUS_TSR : Nat := 1 <<< 22
def MSTATUS_UXL_MASK : Nat := 3 <<< MSTATUS_UXL_SHIFT
def MSTATUS_SXL_MASK : Nat := 3 <<< MSTATUS_SXL_SHIFT

def PG_SHIFT : Nat := 12

def ASID_BITS : Nat := 0
def SATP_MASK : Nat := (15 <<< 60) ||| (((1 <<< ASID_BITS) - 1) <<< 44) ||| ((1 <<< 44) - 1)

def MAX_TRIGGERS : Nat := 1
def MCONTROL_M : Nat := 1 <<< 6
def MCONTROL_EXECUTE : Nat := 1 <<< 2

def MCPUID_C : Nat := 1 <<< 2

/-- Compile-time configuration of `riscv_cpu.c`: `#define CONFIG_SW_MANAGED_A_AND_D 1`. -/
def CONFIG_SW_MANAGED_A_AND_D : Bool := true

def PTE_V_MASK : Nat := 1 <<< 0
def PTE_U_MASK : Nat := 1 <<< 4
def PTE_A_MASK : Nat := 1 <<< 6
def PTE_D_MASK : Nat := 1 <<< 7

def ACCESS_READ : Nat := 0
def ACCESS_WRITE : Nat := 1
def ACCESS_CODE : Nat := 2

/-- Modelled from the spec: the standard machine interrupt-pending bit
positions (`MIP_SSIP`, …) used by the `mip`/`mie`/`mideleg` write masks;
their defines live in `riscv_cpu.h`, which is not among the source files. -/
def MIP_SSIP : Nat := 1 <<< 1
def MIP_MSIP : Nat := 1 <<< 3
def MIP_STIP : Nat := 1 <<< 5
def MIP_MTIP : Nat := 1 <<< 7
def MIP_SEIP : Nat := 1 <<< 9
def MIP_MEIP : Nat := 1 <<< 11

def MIE_SSIE : Nat := MIP_SSIP
def MIE_MSIE : Nat := MIP_MSIP
def MIE_STIE : Nat := MIP_STIP
def MIE_MTIE : Nat := MIP_MTIP
def MIE_SEIE : Nat := MIP_SEIP
def MIE_MEIE : Nat := MIP_MEIP

def SSTATUS_MASK : Nat :=
  MSTATUS_SIE ||| MSTATUS_SPIE ||| MSTATUS_SPP ||| MSTATUS_FS |||
  MSTATUS_SUM ||| MSTATUS_MXR ||| MSTATUS_UXL_MASK

def MSTATUS_MASK : Nat :=
  MSTATUS_SIE ||| MSTATUS_MIE ||| MSTATUS_SPIE ||| MSTATUS_MPIE |||
  MSTATUS_SPP ||| MSTATUS_MPP ||| MSTATUS_FS ||| MSTATUS_MPRV |||
  MSTATUS_SUM ||| MSTATUS_MXR ||| MSTATUS_TVM ||| MSTATUS_TW |||
  MSTATUS_TSR ||| MSTATUS_UXL_MASK ||| MSTATUS_SXL_MASK

/-- Cycle and insn counters enabled in `mcounteren`/`scounteren`. -/
def COUNTEREN_MASK : Nat := (1 <<< 0) ||| (1 <<< 2)

/-! ## Physical memory map

`PhysMemoryRange` carries base, size and the is-RAM flag; RAM contents
are modelled as a function from byte offset to the 64-bit word stored
there (the host-pointer read `*(uint64_t *)(pr->phys_mem + (addr - pr->addr))`). -/

structure PhysMemoryRange where
  addr : Nat
  size : Nat
  is_ram : Bool
  /-- 64-bit word stored at a byte offset of the range's backing buffer. -/
  content : Nat → Nat

/-- Modelled from the spec: `get_phys_mem_range` (defined in the memory-map
module, not among the source files) resolves a physical address to the
unique registered range containing it by linear scan; ranges are
non-overlapping. -/
def get_phys_mem_range (map : List PhysMemoryRange) (paddr : Nat) :
    Option PhysMemoryRange :=
  map.find? fun pr => pr.addr ≤ paddr ∧ paddr < pr.addr + pr.size

/-! ## CPU state (`struct RISCVCPUState`)

Array fields (`reg`, `fp_reg`, `tdata*`, `mhpmevent`, the TLB tags) are
modelled as functions from index; 32-bit C fields (`mie`, `mip`,
`mideleg`, `medeleg`, `misa`, counters-enable, `tselect`) hold values
`< 2^32`, which assignments enforce by truncation where the C conversion
does. -/

structure RISCVCPUState where
  pc : Nat
  reg : Nat → Nat
  fp_reg : Nat → Nat
  fflags : Nat
  frm : Nat
  cur_xlen : Nat
  priv : Nat
  fs : Nat
  mxl : Nat
  minstret : Nat
  mcycle : Nat
  stop_the_counter : Bool
  terminate_simulation : Bool
  mstatus : Nat
  mtvec : Nat
  mscratch : Nat
  mepc : Nat
  mcause : Nat
  mtval : Nat
  mvendorid : Nat
  marchid : Nat
  mimpid : Nat
  mhartid : Nat
  misa : Nat
  mie : Nat
  mip : Nat
  medeleg : Nat
  mideleg : Nat
  mcounteren : Nat
  tselect : Nat
  tdata1 : Nat → Nat
  tdata2 : Nat → Nat
  tdata3 : Nat → Nat
  mhpmevent : Nat → Nat
  stvec : Nat
  sscratch : Nat
  sepc : Nat
  scause : Nat
  stval : Nat
  satp : Nat
  scounteren : Nat
  dcsr : Nat
  dpc : Nat
  dscratch : Nat
  mem_map : List PhysMemoryRange
  /-- Virtual-page tags of the read/write/code TLBs; `mask64` (all-ones,
  the C `-1`) marks an invalid entry. Addends are irrelevant to the
  claims and omitted. -/
  tlb_read_vaddr : Nat → Nat
  tlb_write_vaddr : Nat → Nat
  tlb_code_vaddr : Nat → Nat
  terminating_event : Option String
  /-- Bytes emitted to the host stdout by `putchar` in
  `handle_write_validation1`, modelled as an output trace. -/
  stdout_out : List Nat

/-- All-zero CPU state used as the base point of concrete evaluations. -/
def mkState : RISCVCPUState where
  pc := 0
  reg := fun _ => 0
  fp_reg := fun _ => 0
  fflags := 0
  frm := 0
  cur_xlen := 64
  priv := PRV_M
  fs := 0
  mxl := 2
  minstret := 0
  mcycle := 0
  stop_the_counter := false
  terminate_simulation := false
  mstatus := (2 <<< MSTATUS_UXL_SHIFT) ||| (2 <<< MSTATUS_SXL_SHIFT)
  mtvec := 0
  mscratch := 0
  mepc := 0
  mcause := 0
  mtval := 0
  mvendorid := 0
  marchid := 0
  mimpid := 0
  mhartid := 0
  misa := 0
  mie := 0
  mip := 0
  medeleg := 0
  mideleg := 0
  mcounteren := 0
  tselect := 0
  tdata1 := fun _ => 0
  tdata2 := fun _ => 0
  tdata3 := fun _ => 0
  mhpmevent := fun _ => 0
  stvec := 0
  sscratch := 0
  sepc := 0
  scause := 0
  stval := 0
  satp := 0
  scounteren := 0
  dcsr := 0
  dpc := 0
  dscratch := 0
  mem_map := []
  tlb_read_vaddr := fun _ => mask64
  tlb_write_vaddr := fun _ => mask64
  tlb_code_vaddr := fun _ => mask64
  terminating_event := none
  stdout_out := []

/-- `tlb_flush_all`: invalidate every entry of the three TLBs. -/
def tlb_flush_all (s : RISCVCPUState) : RISCVCPUState :=
  { s with tlb_read_vaddr := fun _ => mask64
           tlb_write_vaddr := fun _ => mask64
           tlb_code_vaddr := fun _ => mask64 }

/-- `get_mstatus`: the complete mstatus with the derived SD bit. -/
def get_mstatus (s : RISCVCPUState) (mask : Nat) : Nat :=
  let val := (s.mstatus ||| (s.fs <<< MSTATUS_FS_SHIFT)) &&& mask
  let sd := (val &&& MSTATUS_FS = MSTATUS_FS) ∨ (val &&& MSTATUS_XS = MSTATUS_XS)
  if sd then val ||| (1 <<< (s.cur_xlen - 1)) else val

/-- `get_base_from_xlen`. -/
def get_base_from_xlen (xlen : Nat) : Nat :=
  if xlen = 32 then 1 else if xlen = 64 then 2 else 3

/-- `set_mstatus`: flush the TLBs on an MMU-relevant change, split FS out
into `s->fs`, store the masked value, then OR the UXL/SXL pin bits in. -/
def set_mstatus (s : RISCVCPUState) (val : Nat) : RISCVCPUState :=
  let mod := s.mstatus ^^^ val
  let s :=
    if (mod &&& (MSTATUS_MPRV ||| MSTATUS_SUM ||| MSTATUS_MXR)) ≠ 0 ∨
        (s.mstatus &&& MSTATUS_MPRV ≠ 0 ∧ mod &&& MSTATUS_MPP ≠ 0) then
      tlb_flush_all s
    else s
  let s := { s with fs := (val >>> MSTATUS_FS_SHIFT) &&& 3 }
  let mask := MSTATUS_MASK &&& not64 MSTATUS_FS
  let s := { s with mstatus := s.mstatus &&& not64 mask ||| val &&& mask }
  { s with mstatus := s.mstatus ||| ((2 <<< MSTATUS_UXL_SHIFT) ||| (2 <<< MSTATUS_SXL_SHIFT)) }

/-- `counter_access_ok`: two-level counter enable per privilege. -/
def counter_access_ok (s : RISCVCPUState) (csr : Nat) : Bool :=
  let counteren :=
    if s.priv = PRV_U then s.mcounteren &&& s.scounteren
    else if s.priv = PRV_S then s.mcounteren
    else if s.priv = PRV_M then mask32
    else 0
  (counteren >>> (csr &&& 31)) &&& 1 = 1

/-- `csr_read`: `none` models the C return of `-1` (invalid CSR), `some v`
the value stored through `*pval` on success. -/
def csr_read (s : RISCVCPUState) (csr : Nat) (will_write : Bool) : Option Nat :=
  if csr &&& 0xc00 = 0xc00 ∧ will_write then none  -- read-only CSR
  else if s.priv < (csr >>> 8) &&& 3 then none     -- not enough privilege
  else if csr = 0x001 then if s.fs = 0 then none else some s.fflags
  else if csr = 0x002 then if s.fs = 0 then none else some s.frm
  else if csr = 0x003 then if s.fs = 0 then none else some (s.fflags ||| (s.frm <<< 5))
  else if csr = 0x100 then some (get_mstatus s SSTATUS_MASK)
  else if csr = 0x104 then some (s.mie &&& s.mideleg)
  else if csr = 0x105 then some s.stvec
  else if csr = 0x106 then some s.scounteren
  else if csr = 0x140 then some s.sscratch
  else if csr = 0x141 then some s.sepc
  else if csr = 0x142 then some s.scause
  else if csr = 0x143 then some s.stval
  else if csr = 0x144 then some (s.mip &&& s.mideleg)
  else if csr = 0x180 then
    if s.priv = PRV_S ∧ s.mstatus &&& MSTATUS_TVM ≠ 0 then none else some s.satp
  else if csr = 0x300 then some (get_mstatus s mask64)
  else if csr = 0x301 then some (s.misa ||| (s.mxl <<< (s.cur_xlen - 2)))
  else if csr = 0x302 then some s.medeleg
  else if csr = 0x303 then some s.mideleg
  else if csr = 0x304 then some s.mie
  else if csr = 0x305 then some s.mtvec
  else if csr = 0x306 then some s.mcounteren
  else if csr = 0x340 then some s.mscratch
  else if csr = 0x341 then some s.mepc
  else if csr = 0x342 then some s.mcause
  else if csr = 0x343 then some s.mtval
  else if csr = 0x344 then some s.mip
  else if csr = 0x7a0 then some s.tselect
  else if csr = 0x7a1 then some (s.tdata1 s.tselect)
  else if csr = 0x7a2 then some (s.tdata2 s.tselect)
  else if csr = 0x7a3 then some (s.tdata3 s.tselect)
  else if csr = 0x7b0 then some s.dcsr
  else if csr = 0x7b1 then some s.dpc
  else if csr = 0x7b2 then some s.dscratch
  else if csr = 0xb00 ∨ csr = 0xc00 then
    if counter_access_ok s csr then some s.mcycle else none
  else if csr = 0xb02 ∨ csr = 0xc02 then
    if counter_access_ok s csr then some s.minstret else none
  else if (0xb03 ≤ csr ∧ csr ≤ 0xb1f) ∨ (0xc03 ≤ csr ∧ csr ≤ 0xc1f) then
    if counter_access_ok s csr then some 0 else none  -- mhpmcounter3..31
  else if csr = 0xb80 ∨ csr = 0xc80 then
    if s.cur_xlen ≠ 32 ∨ ¬counter_access_ok s csr then none else some (s.mcycle >>> 32)
  else if csr = 0xb82 ∨ csr = 0xc82 then
    if s.cur_xlen ≠ 32 ∨ ¬counter_access_ok s csr then none else some (s.minstret >>> 32)
  else if csr = 0xf14 then some s.mhartid
  else if csr = 0xf13 then some s.mimpid
  else if csr = 0xf12 then some s.marchid
  else if csr = 0xf11 then some s.mvendorid
  else if 0x323 ≤ csr ∧ csr ≤ 0x33f then some (s.mhpmevent (csr &&& 0x1F))
  else if csr = 0x81F ∨ csr = 0x8D0 ∨ csr = 0x8D1 then some 0
  else none

/-- `set_frm`. -/
def set_frm (s : RISCVCPUState) (val : Nat) : RISCVCPUState :=
  { s with frm := val }

/-! ## Validation CSR `0x8D1` (`validation_events.h`) -/

def CMD_OFFSET : Nat := 56
def PAYLOAD_MASK : Nat := (1 <<< CMD_OFFSET) - 1
def VALIDATION_CMD_LINUX : Nat := 0x81
def VALIDATION_CMD_BENCH : Nat := 0x82
def LINUX_CMD_VALUE_INVALID : Nat := 0
def LINUX_CMD_VALUE_NUM : Nat := 3
def BENCH_CMD_VALUE_INVALID : Nat := 0
def BENCH_CMD_VALUE_NUM : Nat := 3

structure EventInfo where
  value : Nat
  name : String
  terminate : Bool

/-- The `validation_events` table. -/
def validation_events : List EventInfo :=
  [⟨(VALIDATION_CMD_LINUX <<< CMD_OFFSET) ||| 1, "linux-boot", true⟩,
   ⟨(VALIDATION_CMD_LINUX <<< CMD_OFFSET) ||| 2, "linux-terminate", true⟩,
   ⟨(VALIDATION_CMD_BENCH <<< CMD_OFFSET) ||| 1, "benchmark-start", true⟩,
   ⟨(VALIDATION_CMD_BENCH <<< CMD_OFFSET) ||| 2, "benchmark-end", true⟩]

/-- `handle_write_validation1`: a small value is a console byte; otherwise
the tag/payload dispatch only prints diagnostics, and the event scan sets
`terminate_simulation` on the configured terminating event. -/
def handle_write_validation1 (s : RISCVCPUState) (val : Nat) : RISCVCPUState :=
  if val < 256 then { s with stdout_out := s.stdout_out ++ [val] }
  else
    match validation_events.find? fun e =>
        val = e.value ∧ e.terminate ∧ s.terminating_event = some e.name with
    | some _ => { s with terminate_simulation := true }
    | none => s

/-! ## `csr_write` -/

/-- `csr_write`: the result's first component is the C return value
(`-1` invalid CSR, `0` OK, `1` exit the interpreter loop, `2` TLBs
flushed), the second the updated state. -/
def csr_write (s : RISCVCPUState) (csr val : Nat) : Int × RISCVCPUState :=
  if csr = 0x001 then (0, { s with fflags := val &&& 0x1f, fs := 3 })
  else if csr = 0x002 then (0, { set_frm s (val &&& 7) with fs := 3 })
  else if csr = 0x003 then
    (0, { set_frm s ((val >>> 5) &&& 7) with fflags := val &&& 0x1f, fs := 3 })
  else if csr = 0x100 then  -- sstatus
    (0, set_mstatus s (s.mstatus &&& not64 SSTATUS_MASK ||| val &&& SSTATUS_MASK))
  else if csr = 0x104 then  -- sie
    let mask := s.mideleg
    (0, { s with mie := s.mie &&& not64 mask ||| val &&& mask })
  else if csr = 0x105 then  -- stvec; Maxion 64-byte alignment when vectored
    let val := if val &&& 1 ≠ 0 then val &&& (not64 63 + 1) else val
    (0, { s with stvec := val &&& not64 2 })
  else if csr = 0x106 then (0, { s with scounteren := val &&& COUNTEREN_MASK })
  else if csr = 0x140 then (0, { s with sscratch := val })
  else if csr = 0x141 then
    (0, { s with sepc := val &&& (if s.misa &&& MCPUID_C ≠ 0 then not64 1 else not64 3) })
  else if csr = 0x142 then
    (0, { s with scause := val &&& (CAUSE_MASK ||| (1 <<< (s.cur_xlen - 1))) })
  else if csr = 0x143 then (0, { s with stval := val })
  else if csr = 0x144 then  -- sip
    let mask := s.mideleg
    (0, { s with mip := s.mip &&& not64 mask ||| val &&& mask })
  else if csr = 0x180 then  -- satp
    if s.priv = PRV_S ∧ s.mstatus &&& MSTATUS_TVM ≠ 0 then (-1, s)
    else
      let mode := (val >>> 60) &&& 15
      let s := if mode = 0 ∨ mode = 8 ∨ mode = 9 then { s with satp := val &&& SATP_MASK } else s
      (2, tlb_flush_all s)
  else if csr = 0x300 then (0, set_mstatus s val)
  else if csr = 0x301 then  -- misa: only MXL may toggle
    let new_mxl := (val >>> (s.cur_xlen - 2)) &&& 3
    if 1 ≤ new_mxl ∧ new_mxl ≤ get_base_from_xlen 64 ∧ s.mxl ≠ new_mxl then
      (1, { s with mxl := new_mxl, cur_xlen := 1 <<< (new_mxl + 4) })
    else (0, s)
  else if csr = 0x302 then
    let mask := 0xB109  -- matching Spike and Maxion
    (0, { s with medeleg := s.medeleg &&& not64 mask ||| val &&& mask })
  else if csr = 0x303 then
    let mask := MIP_SSIP ||| MIP_STIP ||| MIP_SEIP
    (0, { s with mideleg := s.mideleg &&& not64 mask ||| val &&& mask })
  else if csr = 0x304 then
    let mask := MIE_MEIE ||| MIE_SEIE ||| MIE_MTIE ||| MIE_STIE ||| MIE_MSIE ||| MIE_SSIE
    (0, { s with mie := s.mie &&& not64 mask ||| val &&& mask })
  else if csr = 0x305 then  -- mtvec; Maxion 64-byte alignment when vectored
    let val := if val &&& 1 ≠ 0 then val &&& (not64 63 + 1) else val
    (0, { s with mtvec := val &&& not64 2 })
  else if csr = 0x306 then (0, { s with mcounteren := val &&& COUNTEREN_MASK })
  else if csr = 0x340 then (0, { s with mscratch := val })
  else if csr = 0x341 then
    (0, { s with mepc := val &&& (if s.misa &&& MCPUID_C ≠ 0 then not64 1 else not64 3) })
  else if csr = 0x342 then
    (0, { s with mcause := val &&& (CAUSE_MASK ||| (1 <<< (s.cur_xlen - 1))) })
  else if csr = 0x343 then (0, { s with mtval := val })
  else if csr = 0x344 then  -- mip
    let mask := MIP_SEIP ||| MIP_STIP ||| MIP_SSIP
    (0, { s with mip := s.mip &&& not64 mask ||| val &&& mask })
  else if csr = 0x7a0 then (0, { s with tselect := val % MAX_TRIGGERS })
  else if csr = 0x7a1 then  -- tdata1: only No Trigger and MControl
    let type := val >>> (s.cur_xlen - 4)
    if type ≠ 0 ∧ type ≠ 2 then (0, s)
    else
      let mask := (15 <<< (s.cur_xlen - 4)) ||| MCONTROL_M ||| MCONTROL_EXECUTE
      (0, { s with tdata1 := fun i =>
              if i = s.tselect then s.tdata1 s.tselect &&& not64 mask ||| val &&& mask
              else s.tdata1 i })
  else if csr = 0x7a2 then
    (0, { s with tdata2 := fun i => if i = s.tselect then val else s.tdata2 i })
  else if csr = 0x7a3 then
    -- the C `case 0x7a3` has no break and falls through into the
    -- mhpmevent case range, so the write also lands in mhpmevent[3]
    (0, { s with tdata3 := fun i => if i = s.tselect then val else s.tdata3 i
                 mhpmevent := fun i => if i = csr &&& 0x1F then val else s.mhpmevent i })
  else if 0x323 ≤ csr ∧ csr ≤ 0x33f then
    (0, { s with mhpmevent := fun i => if i = csr &&& 0x1F then val else s.mhpmevent i })
  else if csr = 0x7b0 then  -- dcsr
    let mask := 0x603  -- stopcount and stoptime && also the priv level to return
    let dcsr := s.dcsr &&& not64 mask ||| val &&& mask
    -- the C source computes `s->dcsr & 0x600 != 0`, which by operator
    -- precedence is `s->dcsr & (0x600 != 0)`, i.e. `s->dcsr & 1`
    (0, { s with dcsr := dcsr, stop_the_counter := dcsr &&& 1 ≠ 0 })
  else if csr = 0x7b1 then
    (0, { s with dpc := val &&& (if s.misa &&& MCPUID_C ≠ 0 then not64 1 else not64 3) })
  else if csr = 0x7b2 then (0, { s with dscratch := val })
  else if csr = 0x81F then (0, s)  -- Esperanto flush-all: ignored
  else if csr = 0x8D0 then  -- Esperanto validation0 register
    if val >>> 12 = 0xDEAD0 then (0, s)  -- begin marker: diagnostic only
    else if val >>> 12 = 0x1FEED then (0, { s with terminate_simulation := true })
    else if val >>> 12 = 0x50BAD then (0, { s with terminate_simulation := true })
    else (0, s)  -- unknown command: diagnostic only
  else if csr = 0x8D1 then (0, handle_write_validation1 s val)
  else if csr = 0xb00 then (0, { s with mcycle := val })
  else if csr = 0xb02 then (0, { s with minstret := val })
  else if 0xb03 ≤ csr ∧ csr ≤ 0xb1f then (0, s)  -- allow but ignore
  else if csr = 0xb80 then
    if s.cur_xlen ≠ 32 then (-1, s)
    else (0, { s with mcycle := s.mcycle % 2 ^ 32 ||| (val <<< 32) % 2 ^ 64 })
  else if csr = 0xb82 then
    if s.cur_xlen ≠ 32 then (-1, s)
    else (0, { s with minstret := s.minstret % 2 ^ 32 ||| (val <<< 32) % 2 ^ 64 })
  else (-1, s)

/-! ## Physical reads and the page-table walker -/

/-- `phys_read_u64`: RAM-backed reads return the stored word, everything
else (no range, or a device range) returns 0. -/
def phys_read_u64 (s : RISCVCPUState) (addr : Nat) : Nat :=
  match get_phys_mem_range s.mem_map addr with
  | none => 0
  | some pr => if pr.is_ram then pr.content (addr - pr.addr) else 0

/-- Result of `get_phys_addr`: `ok` is the C return 0 with `*ppaddr` set,
`pageFault` the C return `-1` (translation error), `accessFault` the C
return `-2` (illegal physical address). -/
inductive GetPhysAddrResult where
  | ok (paddr : Nat)
  | pageFault
  | accessFault
deriving DecidableEq, Repr

/-- Leaf handling of the walk loop of `get_phys_addr` (the `xwr != 0`
branch): reserved-encoding, user/supervisor, MXR, permission and
superpage-alignment checks, then the A/D policy. The second component
collects the PTE write-backs `phys_write_u64(pte_addr, pte)` performed
by the hardware-managed A/D branch. -/
def pte_leaf (s : RISCVCPUState) (vaddr access priv i levels pte_addr pte : Nat) :
    GetPhysAddrResult × List (Nat × Nat) :=
  let vaddr_shift := PG_SHIFT + 9 * (levels - 1 - i)
  let paddr := ((pte >>> 10) <<< PG_SHIFT) % 2 ^ 64
  let xwr := (pte >>> 1) &&& 7
  if xwr = 2 ∨ xwr = 6 then (.pageFault, [])
  else if priv = PRV_S ∧ pte &&& PTE_U_MASK ≠ 0 ∧ s.mstatus &&& MSTATUS_SUM = 0 then
    (.pageFault, [])
  else if priv ≠ PRV_S ∧ pte &&& PTE_U_MASK = 0 then (.pageFault, [])
  else
    -- MXR allows read access to execute-only pages
    let xwr := if s.mstatus &&& MSTATUS_MXR ≠ 0 then xwr ||| (xwr >>> 2) else xwr
    if (xwr >>> access) &&& 1 = 0 then (.pageFault, [])
    else
      let ppn := pte >>> 10
      let j := levels - 1 - i
      if ((1 <<< j) - 1) &&& ppn ≠ 0 then (.pageFault, [])  -- misaligned superpage
      else
        let vaddr_mask := (1 <<< vaddr_shift) - 1
        let ok_paddr := paddr &&& not64 vaddr_mask ||| vaddr &&& vaddr_mask
        if CONFIG_SW_MANAGED_A_AND_D then
          if pte &&& PTE_A_MASK = 0 then (.pageFault, [])  -- must have A on access
          else if access = ACCESS_WRITE ∧ pte &&& PTE_D_MASK = 0 then
            (.pageFault, [])  -- must have D on write
          else (.ok ok_paddr, [])
        else
          let need_write := pte &&& PTE_A_MASK = 0 ∨
            (pte &&& PTE_D_MASK = 0 ∧ access = ACCESS_WRITE)
          let wpte := pte ||| PTE_A_MASK
          let wpte := if access = ACCESS_WRITE then wpte ||| PTE_D_MASK else wpte
          (.ok ok_paddr, if need_write then [(pte_addr, wpte)] else [])

/-- The walk loop of `get_phys_addr` (`for (i = 0; i < levels; i++)`),
with `fuel = levels - i` iterations left; exhausting the loop is the C
fall-through `return -1`. -/
def pte_walk (s : RISCVCPUState) (vaddr access priv levels : Nat) :
    Nat → Nat → Nat → GetPhysAddrResult × List (Nat × Nat)
  | _, _, 0 => (.pageFault, [])
  | pte_addr, i, fuel + 1 =>
    let vaddr_shift := PG_SHIFT + 9 * (levels - 1 - i)
    let pte_idx := (vaddr >>> vaddr_shift) &&& ((1 <<< 9) - 1)
    let pte_addr := (pte_addr + (pte_idx <<< 3)) % 2 ^ 64
    let pte := phys_read_u64 s pte_addr
    if pte &&& PTE_V_MASK = 0 then (.pageFault, [])  -- invalid PTE
    else
      let xwr := (pte >>> 1) &&& 7
      if xwr ≠ 0 then pte_leaf s vaddr access priv i levels pte_addr pte
      else pte_walk s vaddr access priv levels (((pte >>> 10) <<< PG_SHIFT) % 2 ^ 64)
        (i + 1) fuel

/-- `get_phys_addr`: effective-privilege selection, the M-mode identity
map with the 56-bit physical-address limit, bare mode, and the Sv39/Sv48
walk. The second component collects PTE write-backs (always empty under
`CONFIG_SW_MANAGED_A_AND_D`). -/
def get_phys_addr (s : RISCVCPUState) (vaddr access : Nat) :
    GetPhysAddrResult × List (Nat × Nat) :=
  let priv :=
    if s.mstatus &&& MSTATUS_MPRV ≠ 0 ∧ access ≠ ACCESS_CODE then
      (s.mstatus >>> MSTATUS_MPP_SHIFT) &&& 3  -- use previous privilege
    else s.priv
  if priv = PRV_M then
    if 32 < s.cur_xlen ∧ vaddr >>> 56 ≠ 0 then (.accessFault, [])
    else if s.cur_xlen < 64 then (.ok (vaddr &&& ((1 <<< s.cur_xlen) - 1)), [])
    else (.ok vaddr, [])
  else
    let mode := (s.satp >>> 60) &&& 0xf
    if mode = 0 then (.ok vaddr, [])  -- bare: no translation
    else
      let levels := ((mode : Int) - 8 + 3).toNat
      if sext64 vaddr (PG_SHIFT + 9 * levels) ≠ vaddr then (.pageFault, [])
      else
        let pte_addr := (s.satp &&& ((1 <<< 44) - 1)) <<< PG_SHIFT
        pte_walk s vaddr access priv levels pte_addr 0 levels

/-! ## Privilege changes, trap delivery, interrupts -/

/-- `set_priv`: on an actual privilege change, flush the TLBs and derive
the new XLEN from MXL/SXL/UXL. -/
def set_priv (s : RISCVCPUState) (priv : Nat) : RISCVCPUState :=
  if s.priv ≠ priv then
    let s := tlb_flush_all s
    let mxl :=
      if priv = PRV_S then (s.mstatus >>> MSTATUS_SXL_SHIFT) &&& 3
      else if priv = PRV_U then (s.mstatus >>> MSTATUS_UXL_SHIFT) &&& 3
      else s.mxl
    { s with cur_xlen := 1 <<< (4 + mxl), priv := priv }
  else s

/-- `raise_exception2`: delegation to S per `medeleg`/`mideleg`, save of
`epc/cause/tval`, IE-to-PIE transfer, privilege switch and vectoring. -/
def raise_exception2 (s : RISCVCPUState) (cause tval : Nat) : RISCVCPUState :=
  let deleg :=
    if s.priv ≤ PRV_S then
      if cause &&& CAUSE_INTERRUPT ≠ 0 then (s.mideleg >>> (cause &&& 63)) &&& 1 ≠ 0
      else (s.medeleg >>> cause) &&& 1 ≠ 0
    else False
  let causel := cause &&& CAUSE_MASK
  let causel :=
    if cause &&& CAUSE_INTERRUPT ≠ 0 then causel ||| (1 <<< (s.cur_xlen - 1)) else causel
  if deleg then
    let s := { s with scause := causel, sepc := s.pc, stval := tval }
    let s := { s with mstatus := s.mstatus &&& not64 MSTATUS_SPIE |||
      ((if s.mstatus &&& MSTATUS_SIE ≠ 0 then 1 else 0) <<< MSTATUS_SPIE_SHIFT) }
    let s := { s with mstatus := s.mstatus &&& not64 MSTATUS_SPP |||
      (s.priv <<< MSTATUS_SPP_SHIFT) }
    let s := { s with mstatus := s.mstatus &&& not64 MSTATUS_SIE }
    let s := set_priv s PRV_S
    if s.stvec &&& 1 ≠ 0 ∧ cause &&& CAUSE_INTERRUPT ≠ 0 then
      { s with pc := (s.stvec - 1 + 4 * s.scause) % 2 ^ 64 }
    else { s with pc := s.stvec }
  else
    let s := { s with mcause := causel, mepc := s.pc, mtval := tval }
    let s := { s with mstatus := s.mstatus &&& not64 MSTATUS_MPIE |||
      ((if s.mstatus &&& MSTATUS_MIE ≠ 0 then 1 else 0) <<< MSTATUS_MPIE_SHIFT) }
    let s := { s with mstatus := s.mstatus &&& not64 MSTATUS_MPP |||
      (s.priv <<< MSTATUS_MPP_SHIFT) }
    let s := { s with mstatus := s.mstatus &&& not64 MSTATUS_MIE }
    let s := set_priv s PRV_M
    if s.mtvec &&& 1 ≠ 0 ∧ cause &&& CAUSE_INTERRUPT ≠ 0 then
      { s with pc := (s.mtvec - 1 + 4 * s.mcause) % 2 ^ 64 }
    else { s with pc := s.mtvec }

/-- `raise_exception`. -/
def raise_exception (s : RISCVCPUState) (cause : Nat) : RISCVCPUState :=
  raise_exception2 s cause 0

/-- `get_pending_irq_mask`: `mip & mie` gated by the privilege/IE rules. -/
def get_pending_irq_mask (s : RISCVCPUState) : Nat :=
  let pending_ints := s.mip &&& s.mie
  if pending_ints = 0 then 0
  else
    let enabled_ints :=
      if s.priv = PRV_M then
        if s.mstatus &&& MSTATUS_MIE ≠ 0 then not32 s.mideleg else 0
      else if s.priv = PRV_S then
        if s.mstatus &&& MSTATUS_SIE ≠ 0 then not32 s.mideleg ||| s.mideleg
        else not32 s.mideleg
      else mask32  -- PRV_U and the default case: enabled_ints = -1
    pending_ints &&& enabled_ints

/-- Trailing-zero count with explicit fuel (structural so that it
computes). -/
def ctz32_go : Nat → Nat → Nat
  | _, 0 => 0
  | m, fuel + 1 => if m % 2 = 1 ∨ m = 0 then 0 else 1 + ctz32_go (m / 2) fuel

/-- `ctz32`: number of trailing zero bits of a 32-bit value, the C
`__builtin_ctz` (`raise_interrupt` only applies it to non-zero masks). -/
def ctz32 (m : Nat) : Nat := ctz32_go m 32

/-- `raise_interrupt`: first component is the C return (`0` no interrupt,
`-1` interrupt taken), second the resulting state. -/
def raise_interrupt (s : RISCVCPUState) : Int × RISCVCPUState :=
  let mask := get_pending_irq_mask s
  if mask = 0 then (0, s)
  else
    let irq_num := ctz32 mask
    (-1, raise_exception s (irq_num ||| CAUSE_INTERRUPT))

/-! ## HTIF (`src/unnamed/part_000`) -/

def HTIF_BASE_ADDR : Nat := 0x40008000
def CLINT_BASE_ADDR : Nat := 0x02000000
def RTC_FREQ_DIV : Nat := 16

/-- HTIF-relevant machine state: the two 64-bit mailbox registers, the
console output trace (`console->write_data`), and a power-off flag
modelling the `exit(0)` of the `tohost == 1` shuthost command. -/
structure HTIFState where
  htif_tohost : Nat
  htif_fromhost : Nat
  console_out : List Nat
  power_off : Bool
deriving Repr

/-- `htif_handle_cmd`: dispatch on the full 64-bit `tohost` value. -/
def htif_handle_cmd (m : HTIFState) : HTIFState :=
  let device := m.htif_tohost >>> 56
  let cmd := (m.htif_tohost >>> 48) &&& 0xff
  if m.htif_tohost = 1 then { m with power_off := true }  -- shuthost
  else if device = 1 ∧ cmd = 1 then
    { m with console_out := m.console_out ++ [m.htif_tohost &&& 0xff]
             htif_tohost := 0
             htif_fromhost := (device <<< 56) ||| (cmd <<< 48) }
  else if device = 1 ∧ cmd = 0 then
    { m with htif_tohost := 0 }  -- request keyboard interrupt
  else m  -- unsupported tohost: diagnostic only

/-- `htif_write`: 32-bit writes into the `tohost`/`fromhost` words;
writes to either `tohost` half run the command dispatch.  In the C
source the constant `0xffffffff` has type `unsigned int`, so
`~0xffffffff` is the 32-bit value 0 (promoted to `uint64_t` 0): the
offset-0 and offset-8 writes replace the entire 64-bit register with
the 32-bit `val`. -/
def htif_write (m : HTIFState) (offset val : Nat) : HTIFState :=
  if offset = 0 then
    htif_handle_cmd { m with htif_tohost := val }
  else if offset = 4 then
    htif_handle_cmd { m with htif_tohost := m.htif_tohost &&& 0xffffffff ||| (val <<< 32) % 2 ^ 64 }
  else if offset = 8 then
    { m with htif_fromhost := val }
  else if offset = 12 then
    { m with htif_fromhost := m.htif_fromhost &&& 0xffffffff ||| (val <<< 32) % 2 ^ 64 }
  else m

/-! ## Snapshot boot-ROM synthesizer (`create_boot_rom`) -/

/-- `ROM_SIZE` per the layout comment in `create_boot_rom`
(code `0x40..0x800`, data `0x800..0x1000`). -/
def ROM_SIZE : Nat := 0x1000

/-- Modelled from the spec: `BOOT_BASE_ADDR - ROM_BASE_ADDR`, the byte
offset of the boot code inside the ROM; the absolute addresses live in a
header that is not among the source files, but the layout comment in
`create_boot_rom` fixes the code to start at `0x40`. -/
def BOOT_CODE_OFFSET : Nat := 0x40

/-- The `rom` word array under construction together with the two
cursors `code_pos`/`data_pos` (both in 32-bit words). -/
structure BootRom where
  rom : Nat → Nat
  code_pos : Nat
  data_pos : Nat

def rom_push_code (b : BootRom) (w : Nat) : BootRom :=
  { b with rom := fun k => if k = b.code_pos then w else b.rom k
           code_pos := b.code_pos + 1 }

def rom_push_data (b : BootRom) (w : Nat) : BootRom :=
  { b with rom := fun k => if k = b.data_pos then w else b.rom k
           data_pos := b.data_pos + 1 }

def create_csrrw (rs csrn : Nat) : Nat :=
  0x1073 ||| ((csrn &&& 0xFFF) <<< 20) ||| ((rs &&& 0x1F) <<< 15)

def create_csrrs (rd csrn : Nat) : Nat :=
  0x2073 ||| ((csrn &&& 0xFFF) <<< 20) ||| ((rd &&& 0x1F) <<< 7)

def create_auipc (rd addr : Nat) : Nat :=
  let addr := if addr &&& 0x800 ≠ 0 then (addr + 0x800) % 2 ^ 32 else addr
  0x17 ||| ((rd &&& 0x1F) <<< 7) ||| ((addr >>> 12) <<< 12) % 2 ^ 32

def create_addi (rd addr : Nat) : Nat :=
  let pos := addr &&& 0xFFF
  0x13 ||| ((rd &&& 0x1F) <<< 7) ||| ((rd &&& 0x1F) <<< 15) ||| ((pos &&& 0xFFF) <<< 20)

def create_seti (rd data : Nat) : Nat :=
  0x13 ||| ((rd &&& 0x1F) <<< 7) ||| ((data &&& 0xFFF) <<< 20)

def create_ld (rd rs1 : Nat) : Nat :=
  0x3 ||| ((rd &&& 0x1F) <<< 7) ||| (0x3 <<< 12) ||| ((rs1 &&& 0x1F) <<< 15)

def create_sd (rs1 rs2 : Nat) : Nat :=
  0x23 ||| ((rs2 &&& 0x1F) <<< 20) ||| (0x3 <<< 12) ||| ((rs1 &&& 0x1F) <<< 15)

def create_fld (rd rs1 : Nat) : Nat :=
  0x7 ||| ((rd &&& 0x1F) <<< 7) ||| (0x3 <<< 12) ||| ((rs1 &&& 0x1F) <<< 15)

/-- `create_csr12_recovery`: `SETI x1, val; CSRRW x1, csrn`. -/
def create_csr12_recovery (b : BootRom) (csrn val : Nat) : BootRom :=
  rom_push_code (rom_push_code b (create_seti 1 (val &&& 0xFFF))) (create_csrrw 1 csrn)

/-- `create_csr64_recovery`: `AUIPC+ADDI+LD+CSRRW` triplet plus the two
32-bit data-pool words of `val`. -/
def create_csr64_recovery (b : BootRom) (csrn val : Nat) : BootRom :=
  let data_off := 4 * (b.data_pos - b.code_pos)
  let b := rom_push_code b (create_auipc 1 data_off)
  let b := rom_push_code b (create_addi 1 data_off)
  let b := rom_push_code b (create_ld 1 1)
  let b := rom_push_code b (create_csrrw 1 csrn)
  let b := rom_push_data b (val &&& 0xFFFFFFFF)
  rom_push_data b (val >>> 32)

/-- `create_reg_recovery`. -/
def create_reg_recovery (b : BootRom) (rn val : Nat) : BootRom :=
  let data_off := 4 * (b.data_pos - b.code_pos)
  let b := rom_push_code b (create_auipc rn data_off)
  let b := rom_push_code b (create_addi rn data_off)
  let b := rom_push_code b (create_ld rn rn)
  let b := rom_push_data b (val &&& 0xFFFFFFFF)
  rom_push_data b (val >>> 32)

/-- `create_io64_recovery`: load an MMIO address into x1 and a value into
x2, then `SD x2, 0(x1)`. -/
def create_io64_recovery (b : BootRom) (addr val : Nat) : BootRom :=
  let data_off := 4 * (b.data_pos - b.code_pos)
  let b := rom_push_code b (create_auipc 1 data_off)
  let b := rom_push_code b (create_addi 1 data_off)
  let b := rom_push_code b (create_ld 1 1)
  let b := rom_push_data b (addr &&& 0xFFFFFFFF)
  let b := rom_push_data b (addr >>> 32)
  let data_off2 := 4 * (b.data_pos - b.code_pos)
  let b := rom_push_code b (create_auipc 2 data_off2)
  let b := rom_push_code b (create_addi 2 data_off2)
  let b := rom_push_code b (create_ld 2 2)
  let b := rom_push_code b (create_sd 1 2)
  let b := rom_push_data b (val &&& 0xFFFFFFFF)
  rom_push_data b (val >>> 32)

/-- The FP-restore loop of `create_boot_rom` (`for (int i = 0; i < 32;
i++)` under `if (s->fs)`): AUIPC+ADDI+FLD per register; the low data
word is `(uint32_t)s->fp_reg[i]`, the high data word is
`(uint64_t)s->reg[i] >> 32` — exactly as in the source. -/
def boot_rom_fp_regs (s : RISCVCPUState) (b : BootRom) : BootRom :=
  (List.range 32).foldl (fun b i =>
    let data_off := 4 * (b.data_pos - b.code_pos)
    let b := rom_push_code b (create_auipc 1 data_off)
    let b := rom_push_code b (create_addi 1 data_off)
    let b := rom_push_code b (create_fld i 1)
    let b := rom_push_data b (s.fp_reg i % 2 ^ 32)
    rom_push_data b (s.reg i >>> 32)) b

/-- `create_boot_rom`: synthesize the self-replaying boot ROM; the Bool
result is the overflow condition checked at the end (the C `exit(-6)`).
`timecmp` is the machine's CLINT `mtimecmp`. -/
def create_boot_rom (s : RISCVCPUState) (timecmp : Nat) : BootRom × Bool :=
  let b : BootRom :=
    { rom := fun _ => 0
      code_pos := BOOT_CODE_OFFSET / 4
      data_pos := ROM_SIZE / 2 / 4 }
  let data_pos_start := b.data_pos
  let b := create_csr64_recovery b 0x7b1 s.pc  -- dpc
  let prv := if s.priv = PRV_U then 0 else if s.priv = PRV_S then 1 else 3
  let b := create_csr12_recovery b 0x7b0 (0x600 ||| prv)  -- dcsr
  let b := create_csr64_recovery b 0x300 (get_mstatus s mask64)
  let b := create_csr64_recovery b 0x301 (s.misa ||| (s.mxl <<< (s.cur_xlen - 2)))
  let b :=
    if s.fs ≠ 0 then  -- if the FPU is down, you can not recover flags
      let b := create_csr12_recovery b 0x001 s.fflags
      let b := create_csr12_recovery b 0x002 s.frm
      let b := create_csr12_recovery b 0x003 (s.fflags ||| (s.frm <<< 5))
      boot_rom_fp_regs s b
    else b
  let b := (List.range' 3 29).foldl (fun b i =>
    let b := create_csr12_recovery b (0xb00 + i) 0  -- reset mhpmcounter3..31
    create_csr64_recovery b (0x320 + i) (s.mhpmevent i)) b
  let b := create_csr64_recovery b 0x7a0 s.tselect
  let b := create_csr64_recovery b 0x302 s.medeleg
  let b := create_csr64_recovery b 0x303 s.mideleg
  let b := create_csr64_recovery b 0x304 s.mie
  let b := create_csr64_recovery b 0x305 s.mtvec
  let b := create_csr64_recovery b 0x105 s.stvec
  let b := create_csr12_recovery b 0x306 s.mcounteren
  let b := create_csr12_recovery b 0x106 s.scounteren
  let b := create_csr64_recovery b 0x340 s.mscratch
  let b := create_csr64_recovery b 0x341 s.mepc
  let b := create_csr64_recovery b 0x342 s.mcause
  let b := create_csr64_recovery b 0x343 s.mtval
  let b := create_csr64_recovery b 0x140 s.sscratch
  let b := create_csr64_recovery b 0x141 s.sepc
  let b := create_csr64_recovery b 0x142 s.scause
  let b := create_csr64_recovery b 0x143 s.stval
  let b := create_csr64_recovery b 0x344 s.mip
  let b := (List.range' 3 29).foldl (fun b i => create_reg_recovery b i (s.reg i)) b
  let b := create_io64_recovery b (CLINT_BASE_ADDR + 0x4000) timecmp
  let b := create_csr64_recovery b 0xb02 s.minstret
  let b := create_csr64_recovery b 0xb00 s.mcycle
  let b := create_io64_recovery b (CLINT_BASE_ADDR + 0xbff8) (s.mcycle / RTC_FREQ_DIV)
  let b := (List.range' 1 2).foldl (fun b i => create_reg_recovery b i (s.reg i)) b
  let b := rom_push_code b (create_csrrw 1 0x7b2)
  let b := create_csr64_recovery b 0x180 s.satp
  let b := rom_push_code b (create_csrrs 1 0x7b2)
  let b := rom_push_code b 0x7b200073  -- dret
  (b, decide (ROM_SIZE / 4 ≤ b.data_pos ∨ data_pos_start ≤ b.code_pos))

/-- Concrete state used to exercise `raise_interrupt`: only MTIP pending
and enabled, M mode with `mstatus.MIE` set. -/
def irqState : RISCVCPUState :=
  { mkState with mip := MIP_MTIP, mie := MIE_MTIE, mstatus := mkState.mstatus ||| MSTATUS_MIE }

/-- Concrete state used to exercise `create_boot_rom`: FPU on (`fs = 1`)
and `f0` holding a value whose high 32-bit word is non-zero. -/
def fpSnapshotState : RISCVCPUState :=
  { mkState with fs := 1, fp_reg := fun i => if i = 0 then 0xDEADBEEF00000001 else 0 }

/-! # Theorems -/

/-! ## Helper lemmas -/

theorem ctz32_go_spec :
    ∀ fuel m, m ≠ 0 → m < 2 ^ fuel →
      m.testBit (ctz32_go m fuel) = true ∧
        ∀ k, k < ctz32_go m fuel → m.testBit k = false := by
  intro fuel
  induction fuel with
  | zero =>
    intro m h0 hlt
    rw [pow_zero] at hlt
    omega
  | succ f ih =>
    intro m h0 hlt
    rw [ctz32_go]
    by_cases h1 : m % 2 = 1 ∨ m = 0
    · rw [if_pos h1]
      refine ⟨?_, fun k hk => absurd hk (by omega)⟩
      rcases h1 with h1 | h1
      · rw [Nat.testBit_zero, h1]
        rfl
      · exact absurd h1 h0
    · rw [if_neg h1]
      push_neg at h1
      have h2 : m < 2 ^ f * 2 := by
        rw [← pow_succ]
        exact hlt
      have hrec := ih (m / 2) (by omega) (by omega)
      refine ⟨?_, ?_⟩
      · rw [Nat.add_comm, Nat.testBit_succ]
        exact hrec.1
      · intro k hk
        match k with
        | 0 =>
          rw [Nat.testBit_zero, decide_eq_false_iff_not]
          exact h1.1
        | k + 1 =>
          rw [Nat.testBit_succ]
          exact hrec.2 k (by omega)

theorem ctz32_spec (m : Nat) (h : m ≠ 0) (h32 : m < 2 ^ 32) :
    m.testBit (ctz32 m) = true ∧ ∀ k, k < ctz32 m → m.testBit k = false :=
  ctz32_go_spec 32 m h h32

theorem ctz32_lt_of_lt_two_pow {m : Nat} (h : m ≠ 0) (hlt : m < 2 ^ 32) :
    ctz32 m < 32 := by
  by_contra hge
  push_neg at hge
  have hb := (ctz32_spec m h hlt).1
  have : m < 2 ^ ctz32 m :=
    lt_of_lt_of_le hlt (Nat.pow_le_pow_right (by norm_num) hge)
  rw [Nat.testBit_lt_two_pow this] at hb
  exact Bool.false_ne_true hb

/-! ## C1 -/

/-- C1: the claim states that after a `dcsr` (0x7b0) write only bits
{stopcount, stoptime, prv} change and `stop_the_counter` holds iff the
resulting `dcsr & 0x600` is non-zero.  The masking part holds, but the C
source computes `s->dcsr & 0x600 != 0`, which by operator precedence is
`s->dcsr & (0x600 != 0) = s->dcsr & 1`: writing `0x600` (stopcount and
stoptime set) leaves `stop_the_counter` false, and writing `0x1` (only
the prv field) sets it. -/
theorem csr_write_dcsr_stop_the_counter_bug :
    (csr_write mkState 0x7b0 0x600).2.dcsr &&& 0x600 = 0x600 ∧
    (csr_write mkState 0x7b0 0x600).2.stop_the_counter = false ∧
    (csr_write mkState 0x7b0 0x1).2.dcsr &&& 0x600 = 0 ∧
    (csr_write mkState 0x7b0 0x1).2.stop_the_counter = true := by
  decide

/-! ## C5 -/

/-- C5 counterexample: the value `0x11FEED000` has bits [31:12] equal to
`0x1FEED`, yet writing it to validation CSR 0x8D0 leaves
`terminate_simulation` false, because the C code compares the full
`val >> 12` (all 52 upper bits) against the marker constants. -/
theorem csr_write_validation0_counterexample :
    ((0x11FEED000 : Nat) >>> 12) &&& 0xFFFFF = 0x1FEED ∧
    (csr_write mkState 0x8D0 0x11FEED000).2.terminate_simulation = false := by
  decide

/-- C5 (amended): writing a value to validation CSR 0x8D0 whose bits
[63:12] (the full `val >> 12`) equal 0x1FEED (pass) or 0x50BAD (fail)
sets `terminate_simulation`; every other value — in particular the
0xDEAD0 begin marker — leaves it unchanged. -/
theorem csr_write_validation0_terminate (s : RISCVCPUState) (v : Nat) :
    (v >>> 12 = 0x1FEED ∨ v >>> 12 = 0x50BAD →
      (csr_write s 0x8D0 v).2.terminate_simulation = true) ∧
    (v >>> 12 ≠ 0x1FEED → v >>> 12 ≠ 0x50BAD →
      (csr_write s 0x8D0 v).2.terminate_simulation = s.terminate_simulation) := by
  have hunf : csr_write s 0x8D0 v =
      (if v >>> 12 = 0xDEAD0 then (0, s)
       else if v >>> 12 = 0x1FEED then (0, { s with terminate_simulation := true })
       else if v >>> 12 = 0x50BAD then (0, { s with terminate_simulation := true })
       else (0, s)) := rfl
  rw [hunf]
  constructor
  · rintro (h | h) <;> simp [h]
  · intro h1 h2
    split_ifs with hA <;> rfl

/-- C5 witness: a pass marker with clean upper bits terminates the
simulation. -/
theorem csr_write_validation0_terminate_witness :
    (csr_write mkState 0x8D0 0x1FEED000).2.terminate_simulation = true :=
  (csr_write_validation0_terminate mkState 0x1FEED000).1 (by decide)

/-! ## C7 -/

/-- C7: the claim states that after every `set_mstatus` the stored
mstatus has UXL = 2 and SXL = 2.  The final re-pin in the source is only
a bitwise OR of 2 into each field, while the preceding masked store lets
the written value reach the UXL/SXL bits: starting from UXL = 2 and
writing `1 << MSTATUS_UXL_SHIFT` leaves UXL = 3. -/
theorem set_mstatus_uxl_not_pinned :
    (mkState.mstatus >>> MSTATUS_UXL_SHIFT) &&& 3 = 2 ∧
    ((set_mstatus mkState (1 <<< MSTATUS_UXL_SHIFT)).mstatus >>> MSTATUS_UXL_SHIFT) &&& 3
      = 3 ∧
    (((csr_write mkState 0x300 (1 <<< MSTATUS_UXL_SHIFT)).2.mstatus >>> MSTATUS_UXL_SHIFT)
      &&& 3) = 3 := by
  decide

/-! ## C9 -/

/-- C9: a write to CSR 0x7a3 stores the value into `tdata3[tselect]`
and, through the missing `break` before the mhpmevent case range, also
into `mhpmevent[3]` (`0x7a3 & 0x1F = 3`); the write reports success. -/
theorem csr_write_tdata3_fallthrough (s : RISCVCPUState) (v : Nat) :
    (csr_write s 0x7a3 v).1 = 0 ∧
    (csr_write s 0x7a3 v).2.tdata3 s.tselect = v ∧
    (csr_write s 0x7a3 v).2.mhpmevent 3 = v := by
  have hunf : csr_write s 0x7a3 v =
      (0, { s with tdata3 := fun i => if i = s.tselect then v else s.tdata3 i
                   mhpmevent := fun i => if i = 0x7a3 &&& 0x1F then v else s.mhpmevent i }) :=
    rfl
  rw [hunf]
  have h3 : (0x7a3 : Nat) &&& 0x1F = 3 := by decide
  refine ⟨rfl, by simp, by simp [h3]⟩

/-! ## C6 -/

theorem csr_read_mtvec (t : RISCVCPUState) :
    csr_read t 0x305 false = if t.priv < 3 then none else some t.mtvec := rfl

theorem csr_read_stvec (t : RISCVCPUState) :
    csr_read t 0x105 false = if t.priv < 1 then none else some t.stvec := rfl

theorem tvec_mask_vectored (v : Nat) :
    (v &&& (not64 63 + 1)) &&& not64 2 = v &&& not64 62 := by
  rw [Nat.land_assoc]
  have h : (not64 63 + 1) &&& not64 2 = not64 62 := by decide
  rw [h]

/-- C6: a write of `v` to `mtvec` (0x305) or `stvec` (0x105) stores, when
bit 0 of `v` is set (vectored), `v` with bits [5:1] cleared and bit 0
kept (`v &&& not64 62`), and otherwise `v` with bit 1 cleared; a
subsequent M-mode read returns exactly the stored value. -/
theorem csr_write_tvec_alignment (s : RISCVCPUState) (v : Nat)
    (hpriv : s.priv = PRV_M) :
    (v &&& 1 ≠ 0 →
      (csr_write s 0x305 v).2.mtvec = v &&& not64 62 ∧
      csr_read (csr_write s 0x305 v).2 0x305 false = some (v &&& not64 62) ∧
      (csr_write s 0x105 v).2.stvec = v &&& not64 62 ∧
      csr_read (csr_write s 0x105 v).2 0x105 false = some (v &&& not64 62)) ∧
    (v &&& 1 = 0 →
      (csr_write s 0x305 v).2.mtvec = v &&& not64 2 ∧
      csr_read (csr_write s 0x305 v).2 0x305 false = some (v &&& not64 2) ∧
      (csr_write s 0x105 v).2.stvec = v &&& not64 2 ∧
      csr_read (csr_write s 0x105 v).2 0x105 false = some (v &&& not64 2)) := by
  have hunf305 : csr_write s 0x305 v =
      (0, { s with mtvec := (if v &&& 1 ≠ 0 then v &&& (not64 63 + 1) else v) &&& not64 2 }) :=
    rfl
  have hunf105 : csr_write s 0x105 v =
      (0, { s with stvec := (if v &&& 1 ≠ 0 then v &&& (not64 63 + 1) else v) &&& not64 2 }) :=
    rfl
  rw [hunf305, hunf105]
  constructor
  · intro h1
    rw [csr_read_mtvec, csr_read_stvec]
    simp only [if_pos h1, tvec_mask_vectored]
    simp [hpriv, PRV_M]
  · intro h0
    have h1 : ¬(v &&& 1 ≠ 0) := by omega
    rw [csr_read_mtvec, csr_read_stvec]
    simp only [if_neg h1]
    simp [hpriv, PRV_M]

/-- C6 witness: writing `0xFFFF` (vectored) to `mtvec` in M mode stores
and reads back `0xFFC1`. -/
theorem csr_write_tvec_alignment_witness :
    (csr_write mkState 0x305 0xFFFF).2.mtvec = 0xFFFF &&& not64 62 ∧
    (0xFFFF : Nat) &&& not64 62 = 0xFFC1 := by
  refine ⟨((csr_write_tvec_alignment mkState 0xFFFF rfl).1 (by decide)).1, by decide⟩

/-! ## C8 -/

theorem htif_handle_cmd_console (m : HTIFState)
    (h : m.htif_tohost = 0x0101000000000041) :
    htif_handle_cmd m =
      { m with htif_tohost := 0
               htif_fromhost := 0x0101000000000000
               console_out := m.console_out ++ [0x41] } := by
  have e1 : (0x0101000000000041 : Nat) &&& 0xff = 0x41 := by decide
  have e2 : (((0x0101000000000041 : Nat) >>> 56) <<< 56) |||
      ((((0x0101000000000041 : Nat) >>> 48) &&& 0xff) <<< 48) = 0x0101000000000000 := by
    decide
  simp only [htif_handle_cmd, h]
  rw [if_neg (by decide : ¬(0x0101000000000041 : Nat) = 1)]
  rw [if_pos (⟨by decide, by decide⟩ :
    (0x0101000000000041 : Nat) >>> 56 = 1 ∧
      ((0x0101000000000041 : Nat) >>> 48) &&& 0xff = 1)]
  rw [e1, e2]

/-- C8: a 32-bit write to either `tohost` half that makes the full
64-bit `tohost` value `0x0101000000000041` (device 1, cmd 1, payload
`'A'`) appends the byte 0x41 to the console output, clears `tohost`,
and acknowledges with `fromhost = 0x0101000000000000`.  An offset-0
write replaces the whole register with the 32-bit `val`, so only an
offset-4 write (with the low word 0x41 already latched) can produce
this value; the offset-0 case holds vacuously. -/
theorem htif_write_console_byte (m : HTIFState) (offset val : Nat)
    (hoff : offset = 0 ∨ offset = 4) (hv : val < 2 ^ 32)
    (hval : (if offset = 0 then val
             else m.htif_tohost &&& 0xffffffff ||| (val <<< 32) % 2 ^ 64)
        = 0x0101000000000041) :
    htif_write m offset val =
      { m with htif_tohost := 0
               htif_fromhost := 0x0101000000000000
               console_out := m.console_out ++ [0x41] } := by
  rcases hoff with h | h <;> subst h
  · rw [if_pos rfl] at hval
    exact absurd hval (by omega)
  · rw [if_neg (by decide)] at hval
    have h1 : htif_write m 4 val =
        htif_handle_cmd
          { m with htif_tohost := m.htif_tohost &&& 0xffffffff ||| (val <<< 32) % 2 ^ 64 } :=
      rfl
    rw [h1]
    exact htif_handle_cmd_console _ hval

/-! ## C2 and C10: page-walk lemmas -/

theorem pte_leaf_no_write (s : RISCVCPUState) (vaddr access priv i levels pte_addr pte : Nat) :
    (pte_leaf s vaddr access priv i levels pte_addr pte).2 = [] := by
  unfold pte_leaf
  simp only [CONFIG_SW_MANAGED_A_AND_D]
  split_ifs <;> rfl

theorem pte_leaf_ne_accessFault (s : RISCVCPUState)
    (vaddr access priv i levels pte_addr pte : Nat) :
    (pte_leaf s vaddr access priv i levels pte_addr pte).1 ≠ .accessFault := by
  unfold pte_leaf
  simp only [CONFIG_SW_MANAGED_A_AND_D]
  split_ifs <;> simp

theorem pte_walk_no_write (s : RISCVCPUState) (vaddr access priv levels : Nat) :
    ∀ fuel pte_addr i, (pte_walk s vaddr access priv levels pte_addr i fuel).2 = [] := by
  intro fuel
  induction fuel with
  | zero => intro pte_addr i; rfl
  | succ f ih =>
    intro pte_addr i
    simp only [pte_walk]
    split_ifs
    · rfl
    · exact pte_leaf_no_write ..
    · exact ih ..

theorem pte_walk_ne_accessFault (s : RISCVCPUState) (vaddr access priv levels : Nat) :
    ∀ fuel pte_addr i,
      (pte_walk s vaddr access priv levels pte_addr i fuel).1 ≠ .accessFault := by
  intro fuel
  induction fuel with
  | zero => intro pte_addr i; simp [pte_walk]
  | succ f ih =>
    intro pte_addr i
    simp only [pte_walk]
    split_ifs
    · simp
    · apply pte_leaf_ne_accessFault
    · apply ih

theorem pte_walk_zero_mem (s : RISCVCPUState) (vaddr access priv levels : Nat)
    (h0 : ∀ a, phys_read_u64 s a = 0) :
    ∀ fuel pte_addr i, (pte_walk s vaddr access priv levels pte_addr i fuel).1 = .pageFault := by
  intro fuel
  cases fuel with
  | zero => intro pte_addr i; rfl
  | succ f =>
    intro pte_addr i
    simp [pte_walk, h0]

/-! ## C2 -/

/-- C2: with `CONFIG_SW_MANAGED_A_AND_D` set, (i) the walker never
writes a PTE back to memory (for every input the collected write list of
`get_phys_addr` is empty), and (ii) a leaf PTE that passes the
reserved-encoding, user/supervisor, permission (with MXR) and
superpage-alignment checks still page-faults whenever its A bit is clear
or the access is a write and its D bit is clear. -/
theorem get_phys_addr_sw_managed_ad :
    (∀ s vaddr access, (get_phys_addr s vaddr access).2 = []) ∧
    (∀ s vaddr access priv i levels pte_addr pte,
      (pte >>> 1) &&& 7 ≠ 2 → (pte >>> 1) &&& 7 ≠ 6 →
      ¬(priv = PRV_S ∧ pte &&& PTE_U_MASK ≠ 0 ∧ s.mstatus &&& MSTATUS_SUM = 0) →
      ¬(priv ≠ PRV_S ∧ pte &&& PTE_U_MASK = 0) →
      ((if s.mstatus &&& MSTATUS_MXR ≠ 0
        then ((pte >>> 1) &&& 7) ||| (((pte >>> 1) &&& 7) >>> 2)
        else (pte >>> 1) &&& 7) >>> access) &&& 1 ≠ 0 →
      ((1 <<< (levels - 1 - i)) - 1) &&& (pte >>> 10) = 0 →
      (pte &&& PTE_A_MASK = 0 ∨ (access = ACCESS_WRITE ∧ pte &&& PTE_D_MASK = 0)) →
      pte_leaf s vaddr access priv i levels pte_addr pte = (.pageFault, [])) := by
  constructor
  · intro s vaddr access
    simp only [get_phys_addr]
    split_ifs <;> first | rfl | exact pte_walk_no_write ..
  · intro s vaddr access priv i levels pte_addr pte hr2 hr6 hsum hu hperm halign had
    unfold pte_leaf
    simp only [CONFIG_SW_MANAGED_A_AND_D]
    split_ifs <;> first | rfl | tauto

/-- C2 witness: an S-mode read of a supervisor page with `R=1, V=1` and
`A=0` page-faults, and a concrete walk writes nothing. -/
theorem get_phys_addr_sw_managed_ad_witness :
    pte_leaf mkState 0 0 1 2 3 0 3 = (.pageFault, []) ∧
    (get_phys_addr mkState 0 0).2 = [] :=
  ⟨get_phys_addr_sw_managed_ad.2 mkState 0 0 1 2 3 0 3 (by decide) (by decide)
      (by decide) (by decide) (by decide) (by decide) (by decide),
   get_phys_addr_sw_managed_ad.1 mkState 0 0⟩

/-! ## C10 -/

/-- C10: a physical 64-bit read from an address not backed by a
registered RAM range returns 0, so a page walk whose page table resides
in unmapped or device space sees `V = 0` PTEs and page-faults; with
Sv39/Sv48 enabled and a non-M effective privilege the walker never
reports an access fault, whatever the page table's location. -/
theorem pte_fetch_unmapped_page_fault :
    (∀ s addr, (∀ pr, get_phys_mem_range s.mem_map addr = some pr → pr.is_ram = false) →
      phys_read_u64 s addr = 0) ∧
    (∀ s vaddr access,
      (if s.mstatus &&& MSTATUS_MPRV ≠ 0 ∧ access ≠ ACCESS_CODE
       then (s.mstatus >>> MSTATUS_MPP_SHIFT) &&& 3 else s.priv) ≠ PRV_M →
      ((s.satp >>> 60) &&& 0xf = 8 ∨ (s.satp >>> 60) &&& 0xf = 9) →
      (get_phys_addr s vaddr access).1 ≠ .accessFault ∧
      ((∀ a, phys_read_u64 s a = 0) →
        (get_phys_addr s vaddr access).1 = .pageFault)) := by
  constructor
  · intro s addr h
    unfold phys_read_u64
    cases hm : get_phys_mem_range s.mem_map addr with
    | none => rfl
    | some pr => simp [h pr hm]
  · intro s vaddr access hpriv hmode
    have hm0 : (s.satp >>> 60) &&& 0xf ≠ 0 := by rcases hmode with h | h <;> omega
    simp only [get_phys_addr]
    rw [if_neg hpriv, if_neg hm0]
    split_ifs
    all_goals refine ⟨?_, fun h0 => ?_⟩
    all_goals try rfl
    all_goals try (apply pte_walk_ne_accessFault)
    all_goals try (apply pte_walk_zero_mem; exact h0)
    all_goals simp

/-- C10 witness: with an empty memory map, Sv39 user-mode translation of
any address page-faults and is not an access fault. -/
theorem pte_fetch_unmapped_page_fault_witness :
    (get_phys_addr { mkState with priv := PRV_U, satp := 8 <<< 60 } 0 0).1 = .pageFault ∧
    (get_phys_addr { mkState with priv := PRV_U, satp := 8 <<< 60 } 0 0).1 ≠ .accessFault := by
  have h := pte_fetch_unmapped_page_fault.2 { mkState with priv := PRV_U, satp := 8 <<< 60 }
    0 0 (by decide) (by decide)
  exact ⟨h.2 (fun a => rfl), h.1⟩

/-! ## C3 -/

theorem get_pending_irq_mask_lt (s : RISCVCPUState) (h : s.mip < 2 ^ 32) :
    get_pending_irq_mask s < 2 ^ 32 := by
  have hb : ∀ e : Nat, s.mip &&& s.mie &&& e < 2 ^ 32 :=
    fun e => lt_of_le_of_lt (le_trans Nat.and_le_left Nat.and_le_left) h
  unfold get_pending_irq_mask
  simp only []
  split_ifs <;> first | exact hb _ | norm_num

theorem irq_or_interrupt_bits (irq : Nat) (h : irq < 32) :
    (irq ||| CAUSE_INTERRUPT) &&& 63 = irq ∧
    (irq ||| CAUSE_INTERRUPT) &&& CAUSE_MASK = irq ∧
    (irq ||| CAUSE_INTERRUPT) &&& CAUSE_INTERRUPT ≠ 0 := by
  interval_cases irq <;> exact ⟨by decide, by decide, by decide⟩

theorem raise_exception2_interrupt_cause (s : RISCVCPUState) (irq : Nat)
    (hirq : irq < 32) (hxlen : s.cur_xlen = 64) :
    (if s.priv ≤ PRV_S ∧ (s.mideleg >>> irq) &&& 1 ≠ 0
     then (raise_exception2 s (irq ||| CAUSE_INTERRUPT) 0).scause
     else (raise_exception2 s (irq ||| CAUSE_INTERRUPT) 0).mcause)
      = irq ||| (1 <<< 63) := by
  obtain ⟨e63, e31, eint⟩ := irq_or_interrupt_bits irq hirq
  have eintf : ((irq ||| CAUSE_INTERRUPT) &&& CAUSE_INTERRUPT = 0) = False := eq_false eint
  by_cases hps : s.priv ≤ PRV_S <;>
    by_cases hd : (s.mideleg >>> irq) % 2 = 1 <;>
      simp [raise_exception2, set_priv, tlb_flush_all, e63, e31, eintf, hps, hd, hxlen,
        Nat.and_one_is_mod, apply_ite RISCVCPUState.scause, apply_ite RISCVCPUState.mcause]

/-- C3: if `mip & mie == 0` (or more generally the privilege-gated
pending mask is 0), `raise_interrupt` reports no interrupt and leaves
the state unchanged; otherwise it takes an interrupt trap — delegated to
S exactly when `priv ≤ S` and the `mideleg` bit is set — whose recorded
cause number (the low bits of `scause`/`mcause` under the interrupt MSB)
is `ctz32` of the mask, which is its lowest-numbered set bit. -/
theorem raise_interrupt_lowest_pending (s : RISCVCPUState)
    (hmip : s.mip < 2 ^ 32) (hxlen : s.cur_xlen = 64) :
    (s.mip &&& s.mie = 0 → raise_interrupt s = (0, s)) ∧
    (get_pending_irq_mask s = 0 → raise_interrupt s = (0, s)) ∧
    (get_pending_irq_mask s ≠ 0 →
      raise_interrupt s =
        (-1, raise_exception s (ctz32 (get_pending_irq_mask s) ||| CAUSE_INTERRUPT)) ∧
      (get_pending_irq_mask s).testBit (ctz32 (get_pending_irq_mask s)) = true ∧
      (∀ k, k < ctz32 (get_pending_irq_mask s) →
        (get_pending_irq_mask s).testBit k = false) ∧
      (if s.priv ≤ PRV_S ∧ (s.mideleg >>> ctz32 (get_pending_irq_mask s)) &&& 1 ≠ 0
       then (raise_interrupt s).2.scause else (raise_interrupt s).2.mcause)
        = ctz32 (get_pending_irq_mask s) ||| (1 <<< 63)) := by
  refine ⟨?_, ?_, ?_⟩
  · intro h
    have hm : get_pending_irq_mask s = 0 := by
      unfold get_pending_irq_mask
      rw [if_pos h]
    simp only [raise_interrupt]
    rw [if_pos hm]
  · intro hm
    simp only [raise_interrupt]
    rw [if_pos hm]
  · intro hne
    have heq : raise_interrupt s =
        (-1, raise_exception s (ctz32 (get_pending_irq_mask s) ||| CAUSE_INTERRUPT)) := by
      simp only [raise_interrupt]
      rw [if_neg hne]
    have hspec := ctz32_spec (get_pending_irq_mask s) hne (get_pending_irq_mask_lt s hmip)
    have hlt : ctz32 (get_pending_irq_mask s) < 32 :=
      ctz32_lt_of_lt_two_pow hne (get_pending_irq_mask_lt s hmip)
    refine ⟨heq, hspec.1, hspec.2, ?_⟩
    rw [heq]
    exact raise_exception2_interrupt_cause s (ctz32 (get_pending_irq_mask s)) hlt hxlen

/-- C3 witness: with only MTIP pending and enabled at M with `MIE` set,
the taken interrupt records cause 7. -/
theorem raise_interrupt_lowest_pending_witness :
    (raise_interrupt irqState).2.mcause = 7 ||| (1 <<< 63) := by
  have h := (raise_interrupt_lowest_pending irqState (by decide) (by decide)).2.2 (by decide)
  have h4 := h.2.2.2
  rw [if_neg (by decide)] at h4
  have hc : ctz32 (get_pending_irq_mask irqState) = 7 := by decide
  rw [hc] at h4
  exact h4

/-! ## C4 -/

set_option maxRecDepth 16384 in
/-- C4: the claim states that the boot-ROM data pool holds both 32-bit
words of each saved FP register, so the emitted FLD restores `fi`
exactly.  In the synthesized ROM for `fpSnapshotState` the FLD triplet
for `f0` sits at code words 36..38 and its data-pool words at 518/519:
the low word is `(uint32_t)fp_reg[0]` as claimed, but the high word is
`reg[0] >> 32 = 0` — the source stores the high word of the *integer*
register `s->reg[i]`, not of `s->fp_reg[i]`, whose high word is
`0xDEADBEEF` here. -/
theorem create_boot_rom_fp_high_word_bug :
    (create_boot_rom fpSnapshotState 0).1.rom 38 = create_fld 0 1 ∧
    (create_boot_rom fpSnapshotState 0).1.rom 518 = fpSnapshotState.fp_reg 0 % 2 ^ 32 ∧
    (create_boot_rom fpSnapshotState 0).1.rom 519 = fpSnapshotState.reg 0 >>> 32 ∧
    (create_boot_rom fpSnapshotState 0).1.rom 519 = 0 ∧
    fpSnapshotState.fp_reg 0 >>> 32 = 0xDEADBEEF := by
  decide

/-- C8 witness: with the low word 0x41 already latched, writing the high
word 0x01010000 emits `'A'` and acknowledges. -/
theorem htif_write_console_byte_witness :
    htif_write ⟨0x41, 0, [], false⟩ 4 0x01010000 =
      { htif_tohost := 0
        htif_fromhost := 0x0101000000000000
        console_out := [0x41]
        power_off := false } :=
  htif_write_console_byte ⟨0x41, 0, [], false⟩ 4 0x01010000 (Or.inr rfl) (by decide) (by decide)

end Dromajo
